import Mathlib

/-!
Shallow embedding of the scene-switching runtime in src/src/scene.rs
(crate ggez-goodies, module scene): the SavedScene/Scene traits, the
SceneStore and the SceneManager with its EventHandler implementation,
together with the concrete TestSavedScene/TestScene instances from the
module's test suite.

Modelling conventions:
- The trait objects Box<Scene> and Box<SavedScene> are modelled by type
  parameters Sc and Sv, and the two traits (together with the EventHandler
  methods a Scene inherits) by a record of functions SceneImpl Sc Sv.
- Rust methods taking &mut self are modelled as functions returning the
  updated receiver next to their Rust return value.
- ggez::Context and the Duration dt are threaded through update opaquely
  by the manager, so SceneImpl.update models one frame's update at a fixed
  (ctx, dt); the ggez event argument types are modelled by inert wrappers.
- BTreeMap<String, Box<SavedScene>> is modelled as the function map
  StrMap Sv = String -> Option Sv, with insert and get mirroring
  BTreeMap::insert / BTreeMap::get_mut lookup behaviour.
-/

namespace GgezGoodies

/-- Model of ggez::GameError as used here: switch_scene builds
GameError::ResourceNotFound(msg, vec![]). Other variants of the ggez enum
are irrelevant to this module and collapsed into UnknownError. -/
inductive GameError where
  | ResourceNotFound (msg : String) (paths : List String) : GameError
  | UnknownError (msg : String) : GameError
deriving DecidableEq

/-- Model of ggez::GameResult<()> = Result<(), GameError>. -/
inductive GameResult where
  | ok : GameResult
  | error (e : GameError) : GameResult
deriving DecidableEq

/-- Inert wrapper for ggez::event::MouseButton. -/
structure MouseButton where
  code : Nat
deriving DecidableEq

/-- Inert wrapper for ggez::event::MouseState. -/
structure MouseState where
  code : Nat
deriving DecidableEq

/-- Inert wrapper for ggez::event::Keycode. -/
structure Keycode where
  code : Nat
deriving DecidableEq

/-- Inert wrapper for ggez::event::Mod (key modifiers). -/
structure KeyMod where
  code : Nat
deriving DecidableEq

/-- Model of BTreeMap<String, Box<SavedScene>>: a function map from scene
names to stored snapshots. -/
def StrMap (Sv : Type) : Type := String → Option Sv

/-- BTreeMap::new(). -/
def StrMap.empty {Sv : Type} : StrMap Sv := fun _ => none

/-- BTreeMap::insert (overwrites an existing entry for the key). -/
def StrMap.insert {Sv : Type} (m : StrMap Sv) (k : String) (v : Sv) : StrMap Sv :=
  fun q => if q = k then some v else m q

/-- BTreeMap lookup (the code uses get_mut; only the found value matters). -/
def StrMap.get {Sv : Type} (m : StrMap Sv) (k : String) : Option Sv := m k

/-- The capability record of one scene implementation: the SavedScene trait
(load, name), the Scene trait (unload, taking &mut self and returning the
snapshot next to the post-unload scene object), and the EventHandler
methods a Scene provides (update/draw return the mutated scene next to
their GameResult; input handlers mutate the scene; quit_event returns the
veto Bool). -/
structure SceneImpl (Sc Sv : Type) where
  load : Sv → Sc
  name : Sv → String
  unload : Sc → Sv × Sc
  update : Sc → Sc × GameResult
  draw : Sc → Sc × GameResult
  mouse_button_down_event : Sc → MouseButton → Int → Int → Sc
  mouse_button_up_event : Sc → MouseButton → Int → Int → Sc
  mouse_motion_event : Sc → MouseState → Int → Int → Int → Int → Sc
  mouse_wheel_event : Sc → Int → Int → Sc
  key_down_event : Sc → Keycode → KeyMod → Bool → Sc
  key_up_event : Sc → Keycode → KeyMod → Bool → Sc
  focus_event : Sc → Bool → Sc
  quit_event : Sc → Sc × Bool

/-- struct SceneStore<T> { states: BTreeMap<String, Box<SavedScene>>, pub game_data: T }. -/
structure SceneStore (Sv T : Type) where
  states : StrMap Sv
  game_data : T

/-- SceneStore::add: registers a SavedScene under its own name. -/
def SceneStore.add {Sc Sv T : Type} (impl : SceneImpl Sc Sv) (st : SceneStore Sv T)
    (scene_state : Sv) : SceneStore Sv T :=
  { st with states := StrMap.insert st.states (impl.name scene_state) scene_state }

/-- struct SceneManager<T> { store, current: Box<Scene>, next_scene: Option<String> }. -/
structure SceneManager (Sc Sv T : Type) where
  store : SceneStore Sv T
  current : Sc
  next_scene : Option String

/-- SceneManager::new: loads the starting scene (making it current), and
builds the store containing the starting SavedScene under its name;
next_scene starts out None. -/
def SceneManager.new {Sc Sv T : Type} (impl : SceneImpl Sc Sv)
    (starting_scene_state : Sv) (game_data : T) : SceneManager Sc Sv T :=
  let starting_scene := impl.load starting_scene_state
  let scenes : StrMap Sv :=
    StrMap.insert StrMap.empty (impl.name starting_scene_state) starting_scene_state
  { store := { states := scenes, game_data := game_data },
    current := starting_scene,
    next_scene := none }

/-- SceneManager::switch_scene: unloads the current scene, inserts the
snapshot into the store under its own name, then looks the target name up;
on a hit the found snapshot is loaded and becomes current, on a miss a
ResourceNotFound error with the formatted message is returned (the current
field keeps the already-unloaded old scene object). -/
def SceneManager.switch_scene {Sc Sv T : Type} (impl : SceneImpl Sc Sv)
    (sm : SceneManager Sc Sv T) (scene_name : String) :
    SceneManager Sc Sv T × GameResult :=
  let u := impl.unload sm.current
  let old_scene_state := u.1
  let old_scene_name := impl.name old_scene_state
  let states1 := StrMap.insert sm.store.states old_scene_name old_scene_state
  match StrMap.get states1 scene_name with
  | some scene_state =>
      ({ sm with store := { sm.store with states := states1 },
                 current := impl.load scene_state },
       GameResult.ok)
  | none =>
      ({ sm with store := { sm.store with states := states1 },
                 current := u.2 },
       GameResult.error (GameError.ResourceNotFound
         ("SceneManager: Asked to load scene " ++ scene_name ++ " but it did not exist?")
         []))

/-- EventHandler::update for SceneManager: if next_scene is Some, first run
switch_scene on the cloned name (the ? operator propagates its error), then
run update on the current scene and propagate its result. Note the code
never assigns None to next_scene. -/
def SceneManager.update {Sc Sv T : Type} (impl : SceneImpl Sc Sv)
    (sm : SceneManager Sc Sv T) : SceneManager Sc Sv T × GameResult :=
  match sm.next_scene with
  | some scene_name =>
      match SceneManager.switch_scene impl sm scene_name with
      | (sm1, GameResult.error e) => (sm1, GameResult.error e)
      | (sm1, GameResult.ok) =>
          let r := impl.update sm1.current
          ({ sm1 with current := r.1 }, r.2)
  | none =>
      let r := impl.update sm.current
      ({ sm with current := r.1 }, r.2)

/-- EventHandler::draw for SceneManager: forwarded to the current scene. -/
def SceneManager.draw {Sc Sv T : Type} (impl : SceneImpl Sc Sv)
    (sm : SceneManager Sc Sv T) : SceneManager Sc Sv T × GameResult :=
  let r := impl.draw sm.current
  ({ sm with current := r.1 }, r.2)

/-- EventHandler::mouse_button_down_event: forwarded to the current scene. -/
def SceneManager.mouse_button_down_event {Sc Sv T : Type} (impl : SceneImpl Sc Sv)
    (sm : SceneManager Sc Sv T) (button : MouseButton) (x y : Int) : SceneManager Sc Sv T :=
  { sm with current := impl.mouse_button_down_event sm.current button x y }

/-- EventHandler::mouse_button_up_event: forwarded to the current scene. -/
def SceneManager.mouse_button_up_event {Sc Sv T : Type} (impl : SceneImpl Sc Sv)
    (sm : SceneManager Sc Sv T) (button : MouseButton) (x y : Int) : SceneManager Sc Sv T :=
  { sm with current := impl.mouse_button_up_event sm.current button x y }

/-- EventHandler::mouse_motion_event: forwarded to the current scene. -/
def SceneManager.mouse_motion_event {Sc Sv T : Type} (impl : SceneImpl Sc Sv)
    (sm : SceneManager Sc Sv T) (state : MouseState) (x y xrel yrel : Int) :
    SceneManager Sc Sv T :=
  { sm with current := impl.mouse_motion_event sm.current state x y xrel yrel }

/-- EventHandler::mouse_wheel_event: forwarded to the current scene. -/
def SceneManager.mouse_wheel_event {Sc Sv T : Type} (impl : SceneImpl Sc Sv)
    (sm : SceneManager Sc Sv T) (x y : Int) : SceneManager Sc Sv T :=
  { sm with current := impl.mouse_wheel_event sm.current x y }

/-- EventHandler::key_down_event: forwarded to the current scene. -/
def SceneManager.key_down_event {Sc Sv T : Type} (impl : SceneImpl Sc Sv)
    (sm : SceneManager Sc Sv T) (keycode : Keycode) (keymod : KeyMod) (rpt : Bool) :
    SceneManager Sc Sv T :=
  { sm with current := impl.key_down_event sm.current keycode keymod rpt }

/-- EventHandler::key_up_event: forwarded to the current scene. -/
def SceneManager.key_up_event {Sc Sv T : Type} (impl : SceneImpl Sc Sv)
    (sm : SceneManager Sc Sv T) (keycode : Keycode) (keymod : KeyMod) (rpt : Bool) :
    SceneManager Sc Sv T :=
  { sm with current := impl.key_up_event sm.current keycode keymod rpt }

/-- EventHandler::focus_event: forwarded to the current scene. -/
def SceneManager.focus_event {Sc Sv T : Type} (impl : SceneImpl Sc Sv)
    (sm : SceneManager Sc Sv T) (gained : Bool) : SceneManager Sc Sv T :=
  { sm with current := impl.focus_event sm.current gained }

/-- EventHandler::quit_event: forwarded to the current scene; returns the
veto Bool next to the (possibly mutated) manager. -/
def SceneManager.quit_event {Sc Sv T : Type} (impl : SceneImpl Sc Sv)
    (sm : SceneManager Sc Sv T) : SceneManager Sc Sv T × Bool :=
  let r := impl.quit_event sm.current
  ({ sm with current := r.1 }, r.2)

/-- The tests' TestSavedScene { value: i32, name: String }. -/
structure TestSavedScene where
  value : Int
  name : String
deriving DecidableEq

/-- The tests' TestScene(TestSavedScene) newtype. -/
structure TestScene where
  saved : TestSavedScene
deriving DecidableEq

/-- The trait implementations of the test scenes: load clones the snapshot
into a TestScene, unload clones it back out, update and draw return Ok(())
without mutation, every other handler is the ggez EventHandler default
no-op (quit_event defaults to false, i.e. no veto). -/
def testImpl : SceneImpl TestScene TestSavedScene where
  load s := ⟨s⟩
  name s := s.name
  unload sc := (sc.saved, sc)
  update sc := (sc, GameResult.ok)
  draw sc := (sc, GameResult.ok)
  mouse_button_down_event sc _ _ _ := sc
  mouse_button_up_event sc _ _ _ := sc
  mouse_motion_event sc _ _ _ _ _ := sc
  mouse_wheel_event sc _ _ := sc
  key_down_event sc _ _ _ := sc
  key_up_event sc _ _ _ := sc
  focus_event sc _ := sc
  quit_event sc := (sc, false)

/-- The initial scene of test_scene_switching: name "default scene", value 42. -/
def defaultSaved : TestSavedScene := ⟨42, "default scene"⟩

/-- The second scene of test_scene_switching: name "other scene", value 23. -/
def otherSaved : TestSavedScene := ⟨23, "other scene"⟩

/-- The manager of test_scene_switching right after SceneManager::new. -/
def m0 : SceneManager TestScene TestSavedScene Unit :=
  SceneManager.new testImpl defaultSaved ()

/-- Helper map lemma: looking up the just-inserted key finds the value. -/
theorem StrMap.get_insert_self {Sv : Type} (m : StrMap Sv) (k : String) (v : Sv) :
    StrMap.get (StrMap.insert m k v) k = some v := by
  simp [StrMap.get, StrMap.insert]

/-- Helper map lemma: inserting never erases a present key. -/
theorem StrMap.get_insert_ne_none {Sv : Type} (m : StrMap Sv) (k q : String) (v : Sv)
    (h : StrMap.get m q ≠ none) : StrMap.get (StrMap.insert m k v) q ≠ none := by
  by_cases hq : q = k
  · subst hq
    simp [StrMap.get, StrMap.insert]
  · simpa [StrMap.get, StrMap.insert, hq] using h

/-- Helper: the shape of switch_scene when the post-insert lookup hits. -/
theorem switch_scene_some {Sc Sv T : Type} (impl : SceneImpl Sc Sv)
    (sm : SceneManager Sc Sv T) (n : String) (v : Sv)
    (hg : StrMap.get
      (StrMap.insert sm.store.states (impl.name (impl.unload sm.current).1)
        (impl.unload sm.current).1) n = some v) :
    SceneManager.switch_scene impl sm n =
      ({ sm with
          store := { sm.store with
            states := StrMap.insert sm.store.states
              (impl.name (impl.unload sm.current).1) (impl.unload sm.current).1 },
          current := impl.load v },
       GameResult.ok) := by
  simp [SceneManager.switch_scene, hg]

/-- Helper: the shape of switch_scene when the post-insert lookup misses. -/
theorem switch_scene_none {Sc Sv T : Type} (impl : SceneImpl Sc Sv)
    (sm : SceneManager Sc Sv T) (n : String)
    (hg : StrMap.get
      (StrMap.insert sm.store.states (impl.name (impl.unload sm.current).1)
        (impl.unload sm.current).1) n = none) :
    SceneManager.switch_scene impl sm n =
      ({ sm with
          store := { sm.store with
            states := StrMap.insert sm.store.states
              (impl.name (impl.unload sm.current).1) (impl.unload sm.current).1 },
          current := (impl.unload sm.current).2 },
       GameResult.error (GameError.ResourceNotFound
         ("SceneManager: Asked to load scene " ++ n ++ " but it did not exist?")
         [])) := by
  simp [SceneManager.switch_scene, hg]

/-- C1 counterexample: immediately after construction (test scene "default
scene", value 42) the active scene's name is "default scene" and that very
name is present as a key of the store, refuting the claimed invariant that
the active scene's name is never simultaneously a stored entry. -/
theorem C1_counterexample :
    testImpl.name (testImpl.unload m0.current).1 = "default scene" ∧
    StrMap.get m0.store.states "default scene" = some defaultSaved := by
  decide

/-- C1 (amended): the code keeps, rather than removes, the active scene's
entry: after construction the initial scene's name maps to its SavedScene
in the store, and after every successful switch_scene to a name n the store
still holds an entry under n — the very snapshot the new current scene was
loaded from. The entry is only overwritten at the next unload, never
removed at load time. -/
theorem C1_amended_active_name_still_stored {Sc Sv T : Type} (impl : SceneImpl Sc Sv)
    (s : Sv) (t : T) (sm : SceneManager Sc Sv T) (n : String) :
    StrMap.get (SceneManager.new impl s t).store.states (impl.name s) = some s ∧
    ((SceneManager.switch_scene impl sm n).2 = GameResult.ok →
      ∃ v, StrMap.get (SceneManager.switch_scene impl sm n).1.store.states n = some v ∧
        (SceneManager.switch_scene impl sm n).1.current = impl.load v) := by
  constructor
  · simp [SceneManager.new, StrMap.get_insert_self]
  · intro h
    cases hg : StrMap.get
        (StrMap.insert sm.store.states (impl.name (impl.unload sm.current).1)
          (impl.unload sm.current).1) n with
    | none =>
        rw [switch_scene_none impl sm n hg] at h
        cases h
    | some v =>
        refine ⟨v, ?_, ?_⟩
        · rw [switch_scene_some impl sm n v hg]
          exact hg
        · rw [switch_scene_some impl sm n v hg]

/-- C1 witness: for the concrete manager m0 the successful switch back to
"default scene" leaves an entry under that name from which the new current
scene was loaded. -/
theorem C1_amended_witness :
    ∃ v, StrMap.get (SceneManager.switch_scene testImpl m0 "default scene").1.store.states
        "default scene" = some v ∧
      (SceneManager.switch_scene testImpl m0 "default scene").1.current = testImpl.load v :=
  (C1_amended_active_name_still_stored testImpl defaultSaved () m0 "default scene").2
    (by decide)

/-- The manager m0 with a pending transition request for "default scene"
recorded, the configuration claims C2 and C3 quantify over. -/
def m0pending : SceneManager TestScene TestSavedScene Unit :=
  { m0 with next_scene := some "default scene" }

/-- C2: evaluation at the failing input. The pending name "default scene"
is present in the store, the update call executes the switch and succeeds,
yet next_scene still holds Some "default scene" afterwards — no statement
in the code ever assigns None to next_scene, so the same switch re-executes
on every following update tick, contradicting the claim (and the spec's
step c, which the code was clearly meant to implement). -/
theorem C2_next_scene_never_cleared :
    (SceneManager.update testImpl m0pending).2 = GameResult.ok ∧
    (SceneManager.update testImpl m0pending).1.next_scene = some "default scene" := by
  decide

/-- C3: with a pending switch recorded, update is exactly the composition
"run switch_scene first, then run the scene update on the post-switch
current scene": on a successful switch the update step is applied to the
newly loaded scene (the outgoing scene's update never runs that frame),
and on a failed switch the error propagates and no scene update runs. -/
theorem C3_update_executes_switch_first {Sc Sv T : Type} (impl : SceneImpl Sc Sv)
    (sm : SceneManager Sc Sv T) (n : String) (h : sm.next_scene = some n) :
    SceneManager.update impl sm =
      (match SceneManager.switch_scene impl sm n with
       | (sm1, GameResult.ok) =>
           ({ sm1 with current := (impl.update sm1.current).1 }, (impl.update sm1.current).2)
       | (sm1, GameResult.error e) => (sm1, GameResult.error e)) := by
  simp only [SceneManager.update, h]
  rcases hsw : SceneManager.switch_scene impl sm n with ⟨sm1, r⟩
  cases r <;> simp

/-- C3 witness: the composition equation instantiated at the concrete
pending manager m0pending. -/
theorem C3_update_executes_switch_first_witness :
    SceneManager.update testImpl m0pending =
      (match SceneManager.switch_scene testImpl m0pending "default scene" with
       | (sm1, GameResult.ok) =>
           ({ sm1 with current := (testImpl.update sm1.current).1 },
            (testImpl.update sm1.current).2)
       | (sm1, GameResult.error e) => (sm1, GameResult.error e)) :=
  C3_update_executes_switch_first testImpl m0pending "default scene" rfl

/-- Helper map lemma: inserting at a different key leaves a lookup unchanged. -/
theorem StrMap.get_insert_ne {Sv : Type} (m : StrMap Sv) (k q : String) (v : Sv)
    (h : q ≠ k) : StrMap.get (StrMap.insert m k v) q = StrMap.get m q := by
  simp [StrMap.get, StrMap.insert, h]

/-- Helper: whatever the outcome, switch_scene leaves the store's map equal
to the old map with the outgoing snapshot inserted under its own name. -/
theorem switch_scene_states {Sc Sv T : Type} (impl : SceneImpl Sc Sv)
    (sm : SceneManager Sc Sv T) (n : String) :
    (SceneManager.switch_scene impl sm n).1.store.states =
      StrMap.insert sm.store.states (impl.name (impl.unload sm.current).1)
        (impl.unload sm.current).1 := by
  cases hg : StrMap.get
      (StrMap.insert sm.store.states (impl.name (impl.unload sm.current).1)
        (impl.unload sm.current).1) n with
  | none => rw [switch_scene_none impl sm n hg]
  | some v => rw [switch_scene_some impl sm n v hg]

/-- C4: switch_scene fails exactly when the target name is absent from the
store after the outgoing snapshot's reinsertion, and then returns
ResourceNotFound whose message embeds the requested name; it succeeds
exactly when the name is present. Concretely, switching the freshly
constructed manager to the never-registered name "X" fails with
ResourceNotFound carrying "X". -/
theorem C4_switch_error_iff_absent {Sc Sv T : Type} (impl : SceneImpl Sc Sv)
    (sm : SceneManager Sc Sv T) (n : String) :
    ((SceneManager.switch_scene impl sm n).2 =
        GameResult.error (GameError.ResourceNotFound
          ("SceneManager: Asked to load scene " ++ n ++ " but it did not exist?") []) ↔
      StrMap.get (StrMap.insert sm.store.states (impl.name (impl.unload sm.current).1)
        (impl.unload sm.current).1) n = none) ∧
    ((SceneManager.switch_scene impl sm n).2 = GameResult.ok ↔
      StrMap.get (StrMap.insert sm.store.states (impl.name (impl.unload sm.current).1)
        (impl.unload sm.current).1) n ≠ none) ∧
    (SceneManager.switch_scene testImpl m0 "X").2 =
      GameResult.error (GameError.ResourceNotFound
        "SceneManager: Asked to load scene X but it did not exist?" []) := by
  refine ⟨?_, ?_, by decide⟩
  · cases hg : StrMap.get
        (StrMap.insert sm.store.states (impl.name (impl.unload sm.current).1)
          (impl.unload sm.current).1) n with
    | none => rw [switch_scene_none impl sm n hg]; simp
    | some v => rw [switch_scene_some impl sm n v hg]; simp
  · cases hg : StrMap.get
        (StrMap.insert sm.store.states (impl.name (impl.unload sm.current).1)
          (impl.unload sm.current).1) n with
    | none => rw [switch_scene_none impl sm n hg]; simp
    | some v => rw [switch_scene_some impl sm n v hg]; simp

/-- C5: every switch_scene call (successful or not) first unloads the
current scene and inserts the snapshot under its own name, overwriting any
existing entry, before the lookup: the resulting store map is exactly the
old map plus that insertion, the snapshot is retrievable under its name
afterwards, and on failure the transition does not complete — current is
left as the already-unloaded outgoing scene object. -/
theorem C5_unload_inserted_before_lookup {Sc Sv T : Type} (impl : SceneImpl Sc Sv)
    (sm : SceneManager Sc Sv T) (n : String) :
    (SceneManager.switch_scene impl sm n).1.store.states =
      StrMap.insert sm.store.states (impl.name (impl.unload sm.current).1)
        (impl.unload sm.current).1 ∧
    StrMap.get (SceneManager.switch_scene impl sm n).1.store.states
        (impl.name (impl.unload sm.current).1) = some (impl.unload sm.current).1 ∧
    (∀ e, (SceneManager.switch_scene impl sm n).2 = GameResult.error e →
      (SceneManager.switch_scene impl sm n).1.current = (impl.unload sm.current).2) := by
  refine ⟨switch_scene_states impl sm n, ?_, ?_⟩
  · rw [switch_scene_states impl sm n]
    exact StrMap.get_insert_self _ _ _
  · intro e he
    cases hg : StrMap.get
        (StrMap.insert sm.store.states (impl.name (impl.unload sm.current).1)
          (impl.unload sm.current).1) n with
    | none => rw [switch_scene_none impl sm n hg]
    | some v => rw [switch_scene_some impl sm n v hg] at he; cases he

/-- C5 witness: the failed switch of the concrete manager m0 to "X" leaves
current as the unloaded outgoing scene object. -/
theorem C5_unload_inserted_before_lookup_witness :
    (SceneManager.switch_scene testImpl m0 "X").1.current = (testImpl.unload m0.current).2 :=
  (C5_unload_inserted_before_lookup testImpl m0 "X").2.2
    (GameError.ResourceNotFound "SceneManager: Asked to load scene X but it did not exist?" [])
    (by decide)

/-- The manager of the test after sm.store.add(new_scene). -/
def m6a : SceneManager TestScene TestSavedScene Unit :=
  { m0 with store := SceneStore.add testImpl m0.store otherSaved }

/-- The manager after the successful switch "default scene" to "other scene". -/
def m6b : SceneManager TestScene TestSavedScene Unit :=
  (SceneManager.switch_scene testImpl m6a "other scene").1

/-- The manager after switching back to "default scene". -/
def m6c : SceneManager TestScene TestSavedScene Unit :=
  (SceneManager.switch_scene testImpl m6b "default scene").1

/-- C6: with the test scenes (whose load and unload are mutually inverse),
switching A ("default scene", 42) to B ("other scene", 23) and back yields
a current scene whose unload has identity "default scene" and snapshot data
equal to what A's unload produced originally. -/
theorem C6_round_trip_restores_default :
    (SceneManager.switch_scene testImpl m6a "other scene").2 = GameResult.ok ∧
    (SceneManager.switch_scene testImpl m6b "default scene").2 = GameResult.ok ∧
    (testImpl.unload m6c.current).1 = (testImpl.unload m0.current).1 ∧
    (testImpl.unload m6c.current).1 = ⟨42, "default scene"⟩ := by
  decide

/-- First SavedScene registered under the shared name "n" (value 1). -/
def s7first : TestSavedScene := ⟨1, "n"⟩

/-- Second SavedScene registered under the shared name "n" (value 2). -/
def s7second : TestSavedScene := ⟨2, "n"⟩

/-- A manager whose current scene was loaded from s7first and whose store
then received add(s7first) followed by add(s7second). -/
def m7 : SceneManager TestScene TestSavedScene Unit :=
  { SceneManager.new testImpl s7first () with
    store := SceneStore.add testImpl
      (SceneStore.add testImpl (SceneManager.new testImpl s7first ()).store s7first)
      s7second }

/-- C7 counterexample: after add(s7first) then add(s7second) the store maps
"n" to s7second as claimed, but the subsequent switch_scene("n") — from a
manager whose current scene itself unloads under "n" — succeeds and yields
a current scene different from the one s7second produces: the switch first
reinserts the outgoing snapshot (value 1) over s7second, then loads that,
refuting the claim's universally stated second half. -/
theorem C7_counterexample :
    StrMap.get m7.store.states "n" = some s7second ∧
    (SceneManager.switch_scene testImpl m7 "n").2 = GameResult.ok ∧
    (SceneManager.switch_scene testImpl m7 "n").1.current ≠ testImpl.load s7second := by
  decide

/-- Empty store with unit payload, the base of the C7 witness. -/
def store7 : SceneStore TestSavedScene Unit :=
  { states := StrMap.empty, game_data := () }

/-- A manager holding the add(s7first)-then-add(s7second) store whose
current scene unloads under the unrelated name "m". -/
def m7b : SceneManager TestScene TestSavedScene Unit :=
  { store := SceneStore.add testImpl (SceneStore.add testImpl store7 s7first) s7second,
    current := ⟨⟨5, "m"⟩⟩,
    next_scene := none }

/-- C7 (amended): add(s1) then add(s2) with a shared name leaves the store
mapping that name to s2 (last-write-wins, no failure path), and a
subsequent switch to that name loads the scene produced by s2 — provided
the outgoing scene's unload name differs from that name; when the outgoing
scene unloads under that very name, its fresh snapshot overwrites s2 during
the switch and is loaded instead (the counterexample's situation). -/
theorem C7_amended_last_write_wins {Sc Sv T : Type} (impl : SceneImpl Sc Sv)
    (st : SceneStore Sv T) (s1 s2 : Sv) (sm : SceneManager Sc Sv T)
    (_hname : impl.name s1 = impl.name s2)
    (hstore : sm.store.states = (SceneStore.add impl (SceneStore.add impl st s1) s2).states)
    (hcur : impl.name (impl.unload sm.current).1 ≠ impl.name s2) :
    StrMap.get (SceneStore.add impl (SceneStore.add impl st s1) s2).states (impl.name s2)
      = some s2 ∧
    (SceneManager.switch_scene impl sm (impl.name s2)).2 = GameResult.ok ∧
    (SceneManager.switch_scene impl sm (impl.name s2)).1.current = impl.load s2 := by
  have h1 : StrMap.get (SceneStore.add impl (SceneStore.add impl st s1) s2).states
      (impl.name s2) = some s2 := by
    simp [SceneStore.add, StrMap.get_insert_self]
  have hg : StrMap.get
      (StrMap.insert sm.store.states (impl.name (impl.unload sm.current).1)
        (impl.unload sm.current).1) (impl.name s2) = some s2 := by
    rw [StrMap.get_insert_ne _ _ _ _ (Ne.symm hcur), hstore]
    exact h1
  refine ⟨h1, ?_, ?_⟩
  · rw [switch_scene_some impl sm _ s2 hg]
  · rw [switch_scene_some impl sm _ s2 hg]

/-- C7 witness: the amended statement instantiated at the concrete store
built by add(s7first) then add(s7second) and a manager whose current scene
unloads under "m". -/
theorem C7_amended_last_write_wins_witness :
    StrMap.get (SceneStore.add testImpl (SceneStore.add testImpl store7 s7first) s7second).states
      (testImpl.name s7second) = some s7second ∧
    (SceneManager.switch_scene testImpl m7b (testImpl.name s7second)).2 = GameResult.ok ∧
    (SceneManager.switch_scene testImpl m7b (testImpl.name s7second)).1.current =
      testImpl.load s7second :=
  C7_amended_last_write_wins testImpl store7 s7first s7second m7b (by decide) rfl (by decide)

/-- C8: constructing a SceneManager from an initial SavedScene s and payload
t yields current = load s, the store mapping name s to s, shared payload t,
and no pending transition. -/
theorem C8_new_initial_state {Sc Sv T : Type} (impl : SceneImpl Sc Sv) (s : Sv) (t : T) :
    (SceneManager.new impl s t).current = impl.load s ∧
    StrMap.get (SceneManager.new impl s t).store.states (impl.name s) = some s ∧
    (SceneManager.new impl s t).store.game_data = t ∧
    (SceneManager.new impl s t).next_scene = none := by
  refine ⟨rfl, ?_, rfl, rfl⟩
  simp [SceneManager.new, StrMap.get_insert_self]

/-- C9: no operation ever removes a key from the store's map. add and
switch_scene (successful or failing) and update only insert or overwrite
entries, so every name present before stays present; draw and all the
event-dispatch callbacks leave the store untouched altogether. Construction
builds the store afresh, so there is nothing it could delete. -/
theorem C9_store_keys_never_removed {Sc Sv T : Type} (impl : SceneImpl Sc Sv)
    (st : SceneStore Sv T) (s : Sv) (sm : SceneManager Sc Sv T) (n k : String)
    (b : MouseButton) (ms : MouseState) (kc : Keycode) (km : KeyMod)
    (x y xrel yrel : Int) (rpt g : Bool) :
    (StrMap.get st.states k ≠ none → StrMap.get (SceneStore.add impl st s).states k ≠ none) ∧
    (StrMap.get sm.store.states k ≠ none →
      StrMap.get (SceneManager.switch_scene impl sm n).1.store.states k ≠ none) ∧
    (StrMap.get sm.store.states k ≠ none →
      StrMap.get (SceneManager.update impl sm).1.store.states k ≠ none) ∧
    (SceneManager.draw impl sm).1.store = sm.store ∧
    (SceneManager.mouse_button_down_event impl sm b x y).store = sm.store ∧
    (SceneManager.mouse_button_up_event impl sm b x y).store = sm.store ∧
    (SceneManager.mouse_motion_event impl sm ms x y xrel yrel).store = sm.store ∧
    (SceneManager.mouse_wheel_event impl sm x y).store = sm.store ∧
    (SceneManager.key_down_event impl sm kc km rpt).store = sm.store ∧
    (SceneManager.key_up_event impl sm kc km rpt).store = sm.store ∧
    (SceneManager.focus_event impl sm g).store = sm.store ∧
    (SceneManager.quit_event impl sm).1.store = sm.store := by
  refine ⟨?_, ?_, ?_, rfl, rfl, rfl, rfl, rfl, rfl, rfl, rfl, rfl⟩
  · intro hk
    exact StrMap.get_insert_ne_none _ _ _ _ hk
  · intro hk
    rw [switch_scene_states impl sm n]
    exact StrMap.get_insert_ne_none _ _ _ _ hk
  · intro hk
    cases hns : sm.next_scene with
    | none => simpa [SceneManager.update, hns] using hk
    | some a =>
        have hs : StrMap.get (SceneManager.switch_scene impl sm a).1.store.states k
            ≠ none := by
          rw [switch_scene_states impl sm a]
          exact StrMap.get_insert_ne_none _ _ _ _ hk
        simp only [SceneManager.update, hns]
        rcases hsw : SceneManager.switch_scene impl sm a with ⟨sm1, r⟩
        rw [hsw] at hs
        cases r
        · simpa using hs
        · simpa using hs

/-- C9 witness: the key "default scene" survives add, a failed switch to
"X", and an update tick of the concrete manager m0. -/
theorem C9_store_keys_never_removed_witness :
    StrMap.get (SceneStore.add testImpl m0.store otherSaved).states "default scene" ≠ none ∧
    StrMap.get (SceneManager.switch_scene testImpl m0 "X").1.store.states "default scene"
      ≠ none ∧
    StrMap.get (SceneManager.update testImpl m0).1.store.states "default scene" ≠ none :=
  ⟨(C9_store_keys_never_removed testImpl m0.store otherSaved m0 "X" "default scene"
      ⟨0⟩ ⟨0⟩ ⟨0⟩ ⟨0⟩ 0 0 0 0 false false).1 (by decide),
   (C9_store_keys_never_removed testImpl m0.store otherSaved m0 "X" "default scene"
      ⟨0⟩ ⟨0⟩ ⟨0⟩ ⟨0⟩ 0 0 0 0 false false).2.1 (by decide),
   (C9_store_keys_never_removed testImpl m0.store otherSaved m0 "X" "default scene"
      ⟨0⟩ ⟨0⟩ ⟨0⟩ ⟨0⟩ 0 0 0 0 false false).2.2.1 (by decide)⟩

/-- C10: switching to the name the current scene's own unload reports
always succeeds, whatever the store held before: the snapshot is inserted
under exactly that name right before the lookup, so the lookup hits it, and
the new current scene is loaded from that just-produced snapshot. -/
theorem C10_self_switch_always_succeeds {Sc Sv T : Type} (impl : SceneImpl Sc Sv)
    (sm : SceneManager Sc Sv T) :
    (SceneManager.switch_scene impl sm (impl.name (impl.unload sm.current).1)).2 =
      GameResult.ok ∧
    (SceneManager.switch_scene impl sm (impl.name (impl.unload sm.current).1)).1.current =
      impl.load (impl.unload sm.current).1 := by
  have hg := StrMap.get_insert_self sm.store.states
    (impl.name (impl.unload sm.current).1) (impl.unload sm.current).1
  rw [switch_scene_some impl sm _ _ hg]
  exact ⟨rfl, rfl⟩

end GgezGoodies
